import Mathlib

/-!
Verification development for the pulser-stand-alone repository: two interactive
command-line scripts, `producer.py` and `consumer.py`, that connect to a message
broker with token authentication and either publish operator-typed messages or
continuously consume and acknowledge messages.

The shallow embedding below translates the logic of the two scripts into pure
Lean functions.  External effects (stdin lines, broker send/receive outcomes,
the wall clock, the filesystem) are supplied as explicit event lists or oracle
functions, and the observable actions of the scripts (send calls, acknowledge
calls, liveness markers, printed diagnostics, close calls, exit codes) are
recorded in explicit state/trace values.
-/

/- ------------------------------------------------------------------
   Embeddings of the Python string primitives used by the scripts.
   ------------------------------------------------------------------ -/

/-- Embedding of Python `str.strip()` on a character list: remove leading and
trailing whitespace characters. -/
def pyStripList (l : List Char) : List Char :=
  ((l.dropWhile Char.isWhitespace).reverse.dropWhile Char.isWhitespace).reverse

/-- Embedding of Python `str.strip()` (no arguments): strip whitespace from
both ends of the string. -/
def pyStrip (s : String) : String := String.mk (pyStripList s.data)

/-- Embedding of Python `str.lower()` (the scripts only compare ASCII keywords,
so ASCII case folding is the relevant fragment). -/
def pyLower (s : String) : String := String.mk (s.data.map Char.toLower)

/-- Helper for the substring test: does the second list start with the first? -/
def startsWithList : List Char → List Char → Bool
  | [], _ => true
  | _ :: _, [] => false
  | a :: as, b :: bs => a == b && startsWithList as bs

/-- Embedding of the Python membership test `needle in hay` on strings:
the needle occurs as a contiguous substring of the hay. -/
def containsList (needle : List Char) : (hay : List Char) → Bool
  | [] => needle.isEmpty
  | c :: rest => startsWithList needle (c :: rest) || containsList needle rest

/-- Embedding of Python `needle in hay` for strings. -/
def pyContains (hay needle : String) : Bool := containsList needle.data hay.data

/- ------------------------------------------------------------------
   Embedding of Python `str.encode('utf-8')` and `bytes.decode('utf-8')`.
   ------------------------------------------------------------------ -/

/-- Standard UTF-8 encoding of a single scalar value (RFC 3629), the encoding
applied by Python `str.encode('utf-8')` to each character. -/
def utf8EncodeChar (c : Char) : List UInt8 :=
  let v := c.toNat
  if v < 0x80 then [UInt8.ofNat v]
  else if v < 0x800 then
    [UInt8.ofNat (0xC0 ||| (v >>> 6)), UInt8.ofNat (0x80 ||| (v &&& 0x3F))]
  else if v < 0x10000 then
    [UInt8.ofNat (0xE0 ||| (v >>> 12)), UInt8.ofNat (0x80 ||| ((v >>> 6) &&& 0x3F)),
     UInt8.ofNat (0x80 ||| (v &&& 0x3F))]
  else
    [UInt8.ofNat (0xF0 ||| (v >>> 18)), UInt8.ofNat (0x80 ||| ((v >>> 12) &&& 0x3F)),
     UInt8.ofNat (0x80 ||| ((v >>> 6) &&& 0x3F)), UInt8.ofNat (0x80 ||| (v &&& 0x3F))]

/-- Embedding of Python `s.encode('utf-8')`: the byte sequence of the string. -/
def utf8Encode (s : String) : List UInt8 := (s.data.map utf8EncodeChar).flatten

/-- A UTF-8 continuation byte, `0x80..0xBF`. -/
def isUTF8Cont (b : UInt8) : Bool := 0x80 ≤ b && b ≤ 0xBF

/-- Embedding of the success condition of Python `bytes.decode('utf-8')`:
strict RFC 3629 validity (overlong encodings, surrogates, and values above
`U+10FFFF` rejected, exactly as the Python codec does). -/
def validUTF8 : List UInt8 → Bool
  | [] => true
  | b :: rest =>
    if b ≤ 0x7F then validUTF8 rest
    else
      match rest with
      | [] => false
      | c1 :: rest1 =>
        if 0xC2 ≤ b && b ≤ 0xDF then isUTF8Cont c1 && validUTF8 rest1
        else
          match rest1 with
          | [] => false
          | c2 :: rest2 =>
            if b == 0xE0 then (0xA0 ≤ c1 && c1 ≤ 0xBF) && isUTF8Cont c2 && validUTF8 rest2
            else if (0xE1 ≤ b && b ≤ 0xEC) || b == 0xEE || b == 0xEF then
              isUTF8Cont c1 && isUTF8Cont c2 && validUTF8 rest2
            else if b == 0xED then (0x80 ≤ c1 && c1 ≤ 0x9F) && isUTF8Cont c2 && validUTF8 rest2
            else
              match rest2 with
              | [] => false
              | c3 :: rest3 =>
                if b == 0xF0 then
                  (0x90 ≤ c1 && c1 ≤ 0xBF) && isUTF8Cont c2 && isUTF8Cont c3 && validUTF8 rest3
                else if 0xF1 ≤ b && b ≤ 0xF3 then
                  isUTF8Cont c1 && isUTF8Cont c2 && isUTF8Cont c3 && validUTF8 rest3
                else if b == 0xF4 then
                  (0x80 ≤ c1 && c1 ≤ 0x8F) && isUTF8Cont c2 && isUTF8Cont c3 && validUTF8 rest3
                else false

/- ------------------------------------------------------------------
   Credential Loader: `read_token_from_file` (identical in producer.py
   lines 8-21 and consumer.py lines 8-21).
   ------------------------------------------------------------------ -/

/-- Outcome of opening and reading a file, the oracle for `open(...)` /
`f.read()`: the file content, a `FileNotFoundError`, or any other I/O or
decoding exception carrying its description. -/
inductive FileResult where
  | content (s : String)
  | notFound
  | ioError (emsg : String)
deriving DecidableEq

/-- Embedding of `token_file.replace('/', os.sep)`: every forward slash is
replaced by the host separator character (`os.sep` is one character). -/
def normalize_sep (sep : Char) (path : String) : String :=
  String.mk (path.data.map (fun c => if c = '/' then sep else c))

/-- Embedding of `read_token_from_file` (producer.py/consumer.py lines 8-21).
`fs` is the filesystem oracle.  Success returns the stripped file content;
failure returns the printed diagnostic lines together with the `sys.exit`
status code. -/
def read_token_from_file (fs : String → FileResult) (sep : Char)
    (token_file : String) : Except (List String × Nat) String :=
  let windows_path := normalize_sep sep token_file
  match fs windows_path with
  | FileResult.content s => Except.ok (pyStrip s)
  | FileResult.notFound =>
      Except.error (["Error: Token file " ++ windows_path ++ " not found!",
                     "Please run setup-pulsar-jwt.bat first to generate the required tokens."], 1)
  | FileResult.ioError emsg =>
      Except.error (["Error reading token file: " ++ emsg], 1)

/- ------------------------------------------------------------------
   Publish Mode interaction loop: `send_messages_interactive`
   (producer.py lines 60-104).
   ------------------------------------------------------------------ -/

/-- One environment event per iteration of the producer loop: a line returned
by `input()` together with whether the `producer.send` call would succeed at
that iteration and the `time.strftime('%Y-%m-%d %H:%M:%S')` value at that
iteration, or an `EOFError` (Ctrl+D), or a `KeyboardInterrupt` (Ctrl+C). -/
inductive ProducerEvent where
  | line (raw : String) (sendOk : Bool) (ts : String)
  | eofSignal
  | interruptSignal
deriving DecidableEq

/-- Observable state of the producer loop: the `message_count` counter, the
payloads passed to `producer.send` (in order), the payloads whose send call
returned successfully, and whether the loop has exited. -/
structure ProducerState where
  message_count : Nat
  attempts : List (List UInt8)
  successes : List (List UInt8)
  done : Bool
deriving DecidableEq

/-- One iteration of the `while True` body of `send_messages_interactive`:
strip the input line, break on the exit keyword (case-insensitive), skip empty
lines, otherwise append the timestamp, encode as UTF-8 and send; the counter
is incremented only after `producer.send` returns.  A send exception is caught
by the inner `except Exception` and the loop continues; `EOFError` and
`KeyboardInterrupt` leave the loop. -/
def producer_step (s : ProducerState) (e : ProducerEvent) : ProducerState :=
  match e with
  | ProducerEvent.line raw sendOk ts =>
      let user_message := pyStrip raw
      if pyLower user_message = "exit" then { s with done := true }
      else if user_message = "" then s
      else
        let timestamped_message := user_message ++ " - " ++ ts
        let payload := utf8Encode timestamped_message
        if sendOk then
          { s with attempts := s.attempts ++ [payload],
                   successes := s.successes ++ [payload],
                   message_count := s.message_count + 1 }
        else
          { s with attempts := s.attempts ++ [payload] }
  | ProducerEvent.eofSignal => { s with done := true }
  | ProducerEvent.interruptSignal => { s with done := true }

/-- Run the producer loop from a state over a finite list of environment
events; once the loop has exited, later events are not consumed. -/
def producer_run_from (s : ProducerState) : List ProducerEvent → ProducerState
  | [] => s
  | e :: es => if s.done then s else producer_run_from (producer_step s e) es

/-- `message_count = 0` and nothing sent at loop entry. -/
def producer_init : ProducerState :=
  { message_count := 0, attempts := [], successes := [], done := false }

/-- Embedding of `send_messages_interactive` (producer.py lines 60-104) as a
function of the environment events. -/
def send_messages_interactive (events : List ProducerEvent) : ProducerState :=
  producer_run_from producer_init events

/- ------------------------------------------------------------------
   Subscribe Mode interaction loop: `consume_messages_continuous`
   (consumer.py lines 63-105).
   ------------------------------------------------------------------ -/

/-- One environment event per iteration of the consumer loop: either
`consumer.receive` returns a message (payload bytes and message id), or it
raises an exception whose `str(e)` is `emsg` while `int(time.time())` is
`now`, or a `KeyboardInterrupt` arrives. -/
inductive ConsumerEvent where
  | msg (data : List UInt8) (mid : String)
  | exc (emsg : String) (now : Nat)
  | interruptSignal
deriving DecidableEq

/-- Observable state of the consumer loop: the `message_count` counter, the
message ids passed to `consumer.acknowledge` (in order), the number of
liveness dots printed, the number of `time.sleep(1)` pauses taken on the
non-timeout error path, and whether the loop has exited. -/
structure ConsumerState where
  message_count : Nat
  acks : List String
  dots : Nat
  sleeps : Nat
  done : Bool
deriving DecidableEq

/-- One iteration of the `while True` body of `consume_messages_continuous`.
On a received message the counter is incremented first; then
`msg.data().decode('utf-8')` runs: if the payload is valid UTF-8 the message
is printed and acknowledged, otherwise the `UnicodeDecodeError` (whose
description never contains "Timeout") is caught by the generic handler, which
sleeps one second and continues without acknowledging.  On a receive
exception, the handler tests `"Timeout" in str(e)`: a timeout prints a
liveness dot when `message_count == 0 or int(time.time()) % 30 == 0`; any
other error sleeps one second.  `KeyboardInterrupt` leaves the loop. -/
def consumer_step (s : ConsumerState) (e : ConsumerEvent) : ConsumerState :=
  match e with
  | ConsumerEvent.msg data mid =>
      let s1 := { s with message_count := s.message_count + 1 }
      if validUTF8 data then { s1 with acks := s1.acks ++ [mid] }
      else { s1 with sleeps := s1.sleeps + 1 }
  | ConsumerEvent.exc emsg now =>
      if pyContains emsg "Timeout" then
        if s.message_count = 0 ∨ now % 30 = 0 then { s with dots := s.dots + 1 } else s
      else { s with sleeps := s.sleeps + 1 }
  | ConsumerEvent.interruptSignal => { s with done := true }

/-- Run the consumer loop from a state over a finite list of environment
events; once the loop has exited, later events are not consumed. -/
def consumer_run_from (s : ConsumerState) : List ConsumerEvent → ConsumerState
  | [] => s
  | e :: es => if s.done then s else consumer_run_from (consumer_step s e) es

/-- `message_count = 0` and nothing acknowledged at loop entry. -/
def consumer_init : ConsumerState :=
  { message_count := 0, acks := [], dots := 0, sleeps := 0, done := false }

/-- Embedding of `consume_messages_continuous` (consumer.py lines 63-105) as a
function of the environment events. -/
def consume_messages_continuous (events : List ConsumerEvent) : ConsumerState :=
  consumer_run_from consumer_init events

/- ------------------------------------------------------------------
   Shutdown Handler: the `main` functions (producer.py lines 106-131,
   consumer.py lines 107-132), with Python try/except/finally semantics.
   ------------------------------------------------------------------ -/

/-- Actions observable in `main` after the session and channel handle exist:
running the interaction loop, the status print of the interrupt handler, and
the two close calls of the `finally` block. -/
inductive MainAction where
  | runInteractionLoop
  | printNote
  | closeChannel
  | closeSession
deriving DecidableEq

/-- An exception propagating out of the interaction loop call: a
`KeyboardInterrupt`, or any other unhandled fault. -/
inductive PyExc where
  | keyboardInterrupt
  | otherFault
deriving DecidableEq

/-- Python `try/except KeyboardInterrupt` semantics on an action trace: a
`KeyboardInterrupt` from the body is swallowed and the handler actions run;
any other outcome passes through. -/
def tryExceptKeyboardInterrupt (body : List MainAction × Option PyExc)
    (handler : List MainAction) : List MainAction × Option PyExc :=
  match body with
  | (acts, some PyExc.keyboardInterrupt) => (acts ++ handler, none)
  | other => other

/-- Python `try/finally` semantics on an action trace: the cleanup actions run
after the body on every outcome, and the body exception (if any) then
propagates. -/
def tryFinallyRun (body : List MainAction × Option PyExc)
    (cleanup : List MainAction) : List MainAction × Option PyExc :=
  (body.1 ++ cleanup, body.2)

/-- The interaction-loop call inside `main`, parameterized by how the loop
ends: `none` for a normal return (which covers the exit keyword,
end-of-input, and an interrupt caught inside the loop itself) or `some e` for
an exception propagating out of the call. -/
def interaction_loop_call (outcome : Option PyExc) : List MainAction × Option PyExc :=
  ([MainAction.runInteractionLoop], outcome)

/-- Embedding of `main` in producer.py (lines 106-131) from the point where
`client, producer = create_producer()` has returned: the loop call wrapped in
`try/except KeyboardInterrupt/finally`, the `finally` block calling
`producer.close()` then `client.close()`. -/
def producer_main (outcome : Option PyExc) : List MainAction × Option PyExc :=
  tryFinallyRun
    (tryExceptKeyboardInterrupt (interaction_loop_call outcome) [MainAction.printNote])
    [MainAction.closeChannel, MainAction.closeSession]

/-- Embedding of `main` in consumer.py (lines 107-132) from the point where
`client, consumer = create_consumer()` has returned: the same structure, the
`finally` block calling `consumer.close()` then `client.close()`. -/
def consumer_main (outcome : Option PyExc) : List MainAction × Option PyExc :=
  tryFinallyRun
    (tryExceptKeyboardInterrupt (interaction_loop_call outcome) [MainAction.printNote])
    [MainAction.closeChannel, MainAction.closeSession]

/-- The subtrace of release actions, in order. -/
def closesOf (t : List MainAction) : List MainAction :=
  t.filter (fun a => a == MainAction.closeChannel || a == MainAction.closeSession)

/-- Classifier for receive-exception events whose description passes the
`"Timeout" in str(e)` test of the consumer loop. -/
def isTimeoutEvent : ConsumerEvent → Bool
  | ConsumerEvent.exc emsg _ => pyContains emsg "Timeout"
  | _ => false

/- ------------------------------------------------------------------
   Helper lemmas.
   ------------------------------------------------------------------ -/

/-- A timeout iteration leaves the counter, the acknowledgement trace and the
loop-exit flag of the consumer state unchanged (it can only print a dot). -/
theorem consumer_step_timeout_fields (s : ConsumerState) (e : ConsumerEvent)
    (h : isTimeoutEvent e = true) :
    (consumer_step s e).message_count = s.message_count ∧
    (consumer_step s e).acks = s.acks ∧
    (consumer_step s e).done = s.done := by
  cases e with
  | msg data mid => simp [isTimeoutEvent] at h
  | exc emsg now =>
      simp only [isTimeoutEvent] at h
      simp only [consumer_step, h, if_true]
      by_cases hd : s.message_count = 0 ∨ now % 30 = 0 <;> simp [hd]
  | interruptSignal => simp [isTimeoutEvent] at h

/-- Running the consumer loop over timeout events only preserves the counter,
the acknowledgement trace and the loop-exit flag. -/
theorem consumer_run_timeouts (events : List ConsumerEvent) :
    ∀ s : ConsumerState, (∀ e ∈ events, isTimeoutEvent e = true) →
    (consumer_run_from s events).message_count = s.message_count ∧
    (consumer_run_from s events).acks = s.acks ∧
    (consumer_run_from s events).done = s.done := by
  induction events with
  | nil => intro s _; exact ⟨rfl, rfl, rfl⟩
  | cons e es ih =>
      intro s h
      have hstep := consumer_step_timeout_fields s e (h e (List.mem_cons_self e es))
      have hrest := ih (consumer_step s e) (fun x hx => h x (List.mem_cons_of_mem e hx))
      cases hd : s.done with
      | true => simp [consumer_run_from, hd]
      | false =>
          simp only [consumer_run_from, hd, Bool.false_eq_true, if_false]
          exact ⟨hrest.1.trans hstep.1, hrest.2.1.trans hstep.2.1,
                 (hrest.2.2.trans hstep.2.2).trans hd⟩

/-- The producer counter always equals the number of successful sends: the
two are updated together on exactly one branch of the loop body. -/
theorem producer_run_count_inv (events : List ProducerEvent) :
    ∀ s : ProducerState, s.message_count = s.successes.length →
    (producer_run_from s events).message_count
      = (producer_run_from s events).successes.length := by
  induction events with
  | nil => intro s h; exact h
  | cons e es ih =>
      intro s h
      cases hd : s.done with
      | true => simp [producer_run_from, hd, h]
      | false =>
          simp only [producer_run_from, hd, Bool.false_eq_true, if_false]
          apply ih
          cases e with
          | line raw sendOk ts =>
              simp only [producer_step]
              by_cases h1 : pyLower (pyStrip raw) = "exit"
              · rw [if_pos h1]; exact h
              · rw [if_neg h1]
                by_cases h2 : pyStrip raw = ""
                · rw [if_pos h2]; exact h
                · rw [if_neg h2]
                  cases sendOk
                  · simpa using h
                  · simp [h, List.length_append]
          | eofSignal => simpa using h
          | interruptSignal => simpa using h

/- ------------------------------------------------------------------
   The claims.
   ------------------------------------------------------------------ -/

/-- Claim C1 fails as stated: the operator line "exit" is a non-empty input
line, yet the loop transmits nothing for it and the sent-count stays 0 (the
exit check runs before the send). -/
theorem claim_C1_counterexample :
    pyStrip "exit" ≠ "" ∧
    send_messages_interactive [ProducerEvent.line "exit" true "2024-01-01 10:00:00"]
      = { message_count := 0, attempts := [], successes := [], done := true } := by
  exact ⟨by decide, by decide⟩

/-- Claim C1 (amended): in Publish Mode, for every non-empty operator line
that is not the exit keyword (case-insensitively), the payload passed to the
send call equals the line followed by " - " and the strftime timestamp,
encoded as UTF-8 bytes; and when that send call succeeds the sent-count
increments by exactly one. -/
theorem claim_C1_payload_and_count (s : ProducerState) (raw ts : String) (sendOk : Bool)
    (hexit : pyLower (pyStrip raw) ≠ "exit") (hne : pyStrip raw ≠ "") :
    (producer_step s (ProducerEvent.line raw sendOk ts)).attempts
      = s.attempts ++ [utf8Encode (pyStrip raw ++ " - " ++ ts)] ∧
    (sendOk = true →
      (producer_step s (ProducerEvent.line raw sendOk ts)).message_count
        = s.message_count + 1) := by
  cases sendOk <;> simp [producer_step, hexit, hne]

/-- Witness for the amended claim C1 at the line "hello". -/
theorem claim_C1_witness :
    (producer_step producer_init (ProducerEvent.line "hello" true "2024-01-01 10:00:00")).attempts
      = producer_init.attempts
        ++ [utf8Encode (pyStrip "hello" ++ " - " ++ "2024-01-01 10:00:00")] ∧
    (true = true →
      (producer_step producer_init
        (ProducerEvent.line "hello" true "2024-01-01 10:00:00")).message_count
        = producer_init.message_count + 1) :=
  claim_C1_payload_and_count producer_init "hello" "2024-01-01 10:00:00" true
    (by decide) (by decide)

/-- Claim C2 fails as stated: a message whose payload is not valid UTF-8 is a
successful receive and is counted, but `msg.data().decode('utf-8')` raises
before the acknowledge call, the generic handler swallows the error, and no
acknowledgement is ever made for that message. -/
theorem claim_C2_counterexample :
    consume_messages_continuous [ConsumerEvent.msg [0xFF] "msg-1"]
      = { message_count := 1, acks := [], dots := 0, sleeps := 1, done := false } := by
  decide

/-- Claim C2 (amended): in Subscribe Mode every successful receive increments
the received-count by exactly one; for each received message whose payload
decodes as UTF-8, exactly one acknowledgement call is made for that message
before the next receive poll; a message whose payload fails UTF-8 decoding is
counted but never acknowledged. -/
theorem claim_C2_receive_count_ack (s : ConsumerState) (data : List UInt8) (mid : String) :
    (consumer_step s (ConsumerEvent.msg data mid)).message_count = s.message_count + 1 ∧
    (validUTF8 data = true →
      (consumer_step s (ConsumerEvent.msg data mid)).acks = s.acks ++ [mid]) ∧
    (validUTF8 data = false →
      (consumer_step s (ConsumerEvent.msg data mid)).acks = s.acks) := by
  by_cases hv : validUTF8 data = true
  · simp [consumer_step, hv]
  · simp only [Bool.not_eq_true] at hv
    simp [consumer_step, hv]

/-- Witness for the amended claim C2 at a received message with a valid UTF-8
payload. -/
theorem claim_C2_witness :
    (consumer_step consumer_init (ConsumerEvent.msg (utf8Encode "hi") "m1")).acks
      = consumer_init.acks ++ ["m1"] :=
  (claim_C2_receive_count_ack consumer_init (utf8Encode "hi") "m1").2.1 (by decide)

/-- Claim C3: in both processes, on every exit path of the interaction loop
call (normal return, which covers the exit keyword, end-of-input and an
interrupt caught inside the loop; a KeyboardInterrupt propagating out of it;
or any other unhandled fault), the shutdown handler closes the channel handle
and then the client session: the release subtrace is exactly
[closeChannel, closeSession]. -/
theorem claim_C3_shutdown_order (outcome : Option PyExc) :
    closesOf (producer_main outcome).1
      = [MainAction.closeChannel, MainAction.closeSession] ∧
    closesOf (consumer_main outcome).1
      = [MainAction.closeChannel, MainAction.closeSession] := by
  rcases outcome with _ | e
  · exact ⟨by decide, by decide⟩
  · cases e <;> exact ⟨by decide, by decide⟩

/-- Claim C4 concerns a code bug: before any message has been received
(`message_count == 0`), the consumer prints the liveness dot on every single
timeout, not approximately once per 30 seconds: five consecutive timeouts at
wall-clock seconds 1, 2, 3, 4 and 6 (none divisible by 30) print five dots,
contradicting the comment in the code, which says the dot is printed every 30
seconds. -/
theorem claim_C4_dot_every_timeout :
    consume_messages_continuous
      [ConsumerEvent.exc "Pulsar error: Timeout" 1, ConsumerEvent.exc "Pulsar error: Timeout" 2,
       ConsumerEvent.exc "Pulsar error: Timeout" 3, ConsumerEvent.exc "Pulsar error: Timeout" 4,
       ConsumerEvent.exc "Pulsar error: Timeout" 6]
      = { message_count := 0, acks := [], dots := 5, sleeps := 0, done := false } := by
  decide

/-- Claim C5: for every token file that exists and is readable, the loader
returns exactly the file content with surrounding whitespace stripped. -/
theorem claim_C5_loader_trims (fs : String → FileResult) (sep : Char)
    (token_file content : String)
    (h : fs (normalize_sep sep token_file) = FileResult.content content) :
    read_token_from_file fs sep token_file = Except.ok (pyStrip content) := by
  simp [read_token_from_file, h]

/-- Witness for claim C5: a token file containing "abc123" and a newline
yields the credential "abc123". -/
theorem claim_C5_witness :
    read_token_from_file (fun _ => FileResult.content "abc123\n") '/'
      "tokens/client1-token.txt" = Except.ok "abc123" := by
  rw [claim_C5_loader_trims (fun _ => FileResult.content "abc123\n") '/'
    "tokens/client1-token.txt" "abc123\n" rfl]
  rfl

/-- Claim C6 fails as stated: the loader uses a full two-sided strip, so
leading whitespace is NOT preserved: a file containing " abc" yields the
credential "abc", not " abc". -/
theorem claim_C6_counterexample :
    read_token_from_file (fun _ => FileResult.content " abc") '/' "path"
      = Except.ok "abc" ∧ "abc" ≠ " abc" :=
  ⟨rfl, by decide⟩

/-- Claim C6 (amended): the loader removes leading as well as trailing
whitespace: prepending a whitespace character to the file content does not
change the returned credential. -/
theorem claim_C6_leading_also_stripped (sep : Char) (token_file content : String)
    (c : Char) (hc : c.isWhitespace = true) :
    read_token_from_file (fun _ => FileResult.content (String.mk (c :: content.data)))
        sep token_file
      = read_token_from_file (fun _ => FileResult.content content) sep token_file := by
  simp [read_token_from_file, pyStrip, pyStripList, List.dropWhile_cons, hc]

/-- Witness for the amended claim C6 at the content " abc". -/
theorem claim_C6_witness :
    read_token_from_file (fun _ => FileResult.content (String.mk (' ' :: "abc".data)))
        '/' "p"
      = read_token_from_file (fun _ => FileResult.content "abc") '/' "p" :=
  claim_C6_leading_also_stripped '/' "p" "abc" ' ' (by decide)

/-- Claim C7: an operator line whose stripped content equals the exit keyword
case-insensitively makes the loop exit without transmitting that line and
without touching the sent-count, and every later environment event is
ignored. -/
theorem claim_C7_exit_keyword (s : ProducerState) (raw ts : String) (sendOk : Bool)
    (rest : List ProducerEvent) (h : pyLower (pyStrip raw) = "exit") :
    (producer_step s (ProducerEvent.line raw sendOk ts)).done = true ∧
    (producer_step s (ProducerEvent.line raw sendOk ts)).attempts = s.attempts ∧
    (producer_step s (ProducerEvent.line raw sendOk ts)).message_count = s.message_count ∧
    producer_run_from (producer_step s (ProducerEvent.line raw sendOk ts)) rest
      = producer_step s (ProducerEvent.line raw sendOk ts) := by
  have hstep : producer_step s (ProducerEvent.line raw sendOk ts) = { s with done := true } := by
    simp [producer_step, h]
  rw [hstep]
  refine ⟨rfl, rfl, rfl, ?_⟩
  cases rest with
  | nil => rfl
  | cons e es => simp [producer_run_from]

/-- Witness for claim C7 at the line " EXIT " followed by one more line. -/
theorem claim_C7_witness :
    (producer_step producer_init (ProducerEvent.line " EXIT " true "t0")).done = true ∧
    (producer_step producer_init (ProducerEvent.line " EXIT " true "t0")).attempts
      = producer_init.attempts ∧
    (producer_step producer_init (ProducerEvent.line " EXIT " true "t0")).message_count
      = producer_init.message_count ∧
    producer_run_from (producer_step producer_init (ProducerEvent.line " EXIT " true "t0"))
        [ProducerEvent.line "late" true "t1"]
      = producer_step producer_init (ProducerEvent.line " EXIT " true "t0") :=
  claim_C7_exit_keyword producer_init " EXIT " "t0" true
    [ProducerEvent.line "late" true "t1"] (by decide)

/-- Claim C8: receive timeouts never increment the received-count, never
acknowledge anything and never make the loop exit: a run over timeout events
only ends with count 0, no acknowledgements, and the loop still polling. -/
theorem claim_C8_timeouts_no_effect (events : List ConsumerEvent)
    (h : ∀ e ∈ events, isTimeoutEvent e = true) :
    (consume_messages_continuous events).message_count = 0 ∧
    (consume_messages_continuous events).acks = [] ∧
    (consume_messages_continuous events).done = false := by
  have hrun := consumer_run_timeouts events consumer_init h
  exact ⟨hrun.1, hrun.2.1, hrun.2.2⟩

/-- Witness for claim C8: five consecutive receive timeouts leave count 0, no
acknowledgements, and the loop alive. -/
theorem claim_C8_witness :
    (consume_messages_continuous
      [ConsumerEvent.exc "Pulsar error: Timeout" 7, ConsumerEvent.exc "Pulsar error: Timeout" 12,
       ConsumerEvent.exc "Pulsar error: Timeout" 17, ConsumerEvent.exc "Pulsar error: Timeout" 22,
       ConsumerEvent.exc "Pulsar error: Timeout" 27]).message_count = 0 ∧
    (consume_messages_continuous
      [ConsumerEvent.exc "Pulsar error: Timeout" 7, ConsumerEvent.exc "Pulsar error: Timeout" 12,
       ConsumerEvent.exc "Pulsar error: Timeout" 17, ConsumerEvent.exc "Pulsar error: Timeout" 22,
       ConsumerEvent.exc "Pulsar error: Timeout" 27]).acks = [] ∧
    (consume_messages_continuous
      [ConsumerEvent.exc "Pulsar error: Timeout" 7, ConsumerEvent.exc "Pulsar error: Timeout" 12,
       ConsumerEvent.exc "Pulsar error: Timeout" 17, ConsumerEvent.exc "Pulsar error: Timeout" 22,
       ConsumerEvent.exc "Pulsar error: Timeout" 27]).done = false :=
  claim_C8_timeouts_no_effect
    [ConsumerEvent.exc "Pulsar error: Timeout" 7, ConsumerEvent.exc "Pulsar error: Timeout" 12,
     ConsumerEvent.exc "Pulsar error: Timeout" 17, ConsumerEvent.exc "Pulsar error: Timeout" 22,
     ConsumerEvent.exc "Pulsar error: Timeout" 27] (by decide)

/-- Claim C9: for a token-file path that does not resolve to a file, the
loader prints the not-found diagnostic and the operator guidance line and
terminates with the non-zero exit status 1; the single oracle consultation in
the definition reflects that no retry is made. -/
theorem claim_C9_missing_token (fs : String → FileResult) (sep : Char) (token_file : String)
    (h : fs (normalize_sep sep token_file) = FileResult.notFound) :
    read_token_from_file fs sep token_file
      = Except.error
          (["Error: Token file " ++ normalize_sep sep token_file ++ " not found!",
            "Please run setup-pulsar-jwt.bat first to generate the required tokens."], 1) ∧
    (1 : Nat) ≠ 0 := by
  refine ⟨?_, by decide⟩
  simp [read_token_from_file, h]

/-- Witness for claim C9 at the path used by producer.py over an empty
filesystem. -/
theorem claim_C9_witness :
    read_token_from_file (fun _ => FileResult.notFound) '/' "tokens/client1-token.txt"
      = Except.error
          (["Error: Token file "
              ++ normalize_sep '/' "tokens/client1-token.txt" ++ " not found!",
            "Please run setup-pulsar-jwt.bat first to generate the required tokens."], 1) ∧
    (1 : Nat) ≠ 0 :=
  claim_C9_missing_token (fun _ => FileResult.notFound) '/' "tokens/client1-token.txt" rfl

/-- Claim C10: the sent-count is incremented only on a successful send: over
any run it equals the number of successful transmissions, and a failing send
of a non-empty, non-exit line leaves the count, the success trace and the
loop-exit flag unchanged (the loop continues). -/
theorem claim_C10_count_only_successes (events : List ProducerEvent) (s : ProducerState)
    (raw ts : String) (hexit : pyLower (pyStrip raw) ≠ "exit") (hne : pyStrip raw ≠ "") :
    (send_messages_interactive events).message_count
      = (send_messages_interactive events).successes.length ∧
    (producer_step s (ProducerEvent.line raw false ts)).message_count = s.message_count ∧
    (producer_step s (ProducerEvent.line raw false ts)).successes = s.successes ∧
    (producer_step s (ProducerEvent.line raw false ts)).done = s.done := by
  refine ⟨producer_run_count_inv events producer_init rfl, ?_, ?_, ?_⟩ <;>
    simp [producer_step, hexit, hne]

/-- Witness for claim C10: a failing send of "hello" leaves the initial state
counter at 0 with no successes and the loop still running. -/
theorem claim_C10_witness :
    (send_messages_interactive [ProducerEvent.line "hello" false "t0"]).message_count
      = (send_messages_interactive [ProducerEvent.line "hello" false "t0"]).successes.length ∧
    (producer_step producer_init (ProducerEvent.line "hello" false "t0")).message_count
      = producer_init.message_count ∧
    (producer_step producer_init (ProducerEvent.line "hello" false "t0")).successes
      = producer_init.successes ∧
    (producer_step producer_init (ProducerEvent.line "hello" false "t0")).done
      = producer_init.done :=
  claim_C10_count_only_successes [ProducerEvent.line "hello" false "t0"] producer_init
    "hello" "t0" (by decide) (by decide)
